import Mathlib

/-!
Verification of the `findid` command-line program of libcomcat
(`libcomcat/bin/findid.py`) against its specification.

The program is embedded shallowly: `main` of `findid.py` becomes the pure
function `mainRun` below, with printing modelled as lists of output lines,
`sys.exit` / uncaught exceptions modelled by the `Exit` type, and the network
modelled by an explicit fetch oracle.  The helper functions that `findid.py`
imports from elsewhere in libcomcat (`find_nearby_events` from
`libcomcat.dataframes` and `maketime` from `libcomcat.utils`) are not among the
provided sources; they are modelled from the specification and marked as such
in their doc comments.  Python machine floats are modelled as rationals.
-/

namespace FindId

/-- `SEARCH_RADIUS = 100` (findid.py line 21). -/
def SEARCH_RADIUS : Rat := 100

/-- `TIME_WINDOW = 16  # seconds` (findid.py line 22). -/
def TIME_WINDOW : Rat := 16

/-- One record returned by the catalog service (spec section 3,
CandidateEvent).  The event time is seconds on the program time axis. -/
structure CandidateEvent where
  id : String
  time : Int
  latitude : Rat
  longitude : Rat
  depth : Rat
  magnitude : Rat
  url : String
deriving DecidableEq, Repr

/-- A candidate event together with its derived columns (spec section 3,
RankedEvent). -/
structure RankedEvent where
  event : CandidateEvent
  distance_km : Rat
  time_delta_s : Rat
  azimuth_deg : Rat
deriving DecidableEq, Repr

/-- The geometric kernel of the ranker: great-circle (haversine) distance and
initial bearing are real-valued trigonometric functions, so the embedding
takes them as an abstract parameter; every ranking property proved below
holds for an arbitrary geometry. -/
structure Geo where
  dist : Rat → Rat → Rat → Rat → Rat
  azimuth : Rat → Rat → Rat → Rat → Rat

/-- Absolute value on the rationals, written so that it evaluates
(`abs` of Mathlib is definitionally a lattice operation); `rabs_eq_abs`
below shows it is the absolute value. -/
def rabs (q : Rat) : Rat := if q < 0 then -q else q

/-- Comparison by the composite key (time_delta_s, distance_km), ascending:
the sort order of the ranked result set (spec sections 3 and 4.3). -/
def rankLe (a b : RankedEvent) : Bool :=
  decide (a.time_delta_s < b.time_delta_s) ||
    (decide (a.time_delta_s = b.time_delta_s) && decide (a.distance_km ≤ b.distance_km))

/-- The composite sort key of a ranked event. -/
def rankKey (r : RankedEvent) : Rat × Rat := (r.time_delta_s, r.distance_km)

/-- Modelled from the spec (section 4.3 step 1): derive distance, absolute
time delta in seconds, and azimuth for each candidate. -/
def score_events (geo : Geo) (t0 : Int) (lat0 lon0 : Rat)
    (cands : List CandidateEvent) : List RankedEvent :=
  cands.map fun c =>
    { event := c
      distance_km := geo.dist lat0 lon0 c.latitude c.longitude
      time_delta_s := rabs ((c.time : Rat) - (t0 : Rat))
      azimuth_deg := geo.azimuth lat0 lon0 c.latitude c.longitude }

/-- Modelled from the spec (section 4.3 step 2): keep candidates within the
radius and the time window, bounds inclusive. -/
def filter_events (window radius : Rat) (l : List RankedEvent) : List RankedEvent :=
  l.filter fun r => decide (r.distance_km ≤ radius) && decide (r.time_delta_s ≤ window)

/-- Modelled from the spec (section 4.3): score each candidate, filter to the
window and radius, and stably sort ascending by (time_delta_s, distance_km). -/
def rank_events (geo : Geo) (t0 : Int) (lat0 lon0 window radius : Rat)
    (cands : List CandidateEvent) : List RankedEvent :=
  (filter_events window radius (score_events geo t0 lat0 lon0 cands)).mergeSort rankLe

/-- The catalog service as a black box: given the query parameters
(time, lat, lon, window, radius) it returns the candidate records. -/
def Fetch : Type := Int → Rat → Rat → Rat → Rat → List CandidateEvent

/-- Python `rfind` of a character: index of the last occurrence, `-1` if
absent (used by `os.path.splitext`). -/
def rfindAux (c : Char) : List Char → Nat → Int → Int
  | [], _, acc => acc
  | x :: xs, i, acc => rfindAux c xs (i + 1) (if x = c then (i : Int) else acc)

def rfind (c : Char) (s : String) : Int := rfindAux c s.data 0 (-1)

/-- `os.path.splitext` (posixpath): split off the extension at the last dot,
provided that dot lies after the last path separator and is preceded inside
the basename by at least one character that is not a dot. -/
def splitext (p : String) : String × String :=
  let sepIndex := rfind '/' p
  let dotIndex := rfind '.' p
  let hasName := (List.range p.data.length).any fun i =>
    decide (sepIndex < (i : Int)) && decide ((i : Int) < dotIndex) &&
      decide (p.data.getD i '.' ≠ '.')
  if dotIndex > sepIndex && hasName then
    (String.mk (p.data.take dotIndex.toNat), String.mk (p.data.drop dotIndex.toNat))
  else
    (p, "")

/-- `supported = ['.xlsx', '.csv']` (findid.py line 132). -/
def supported : List String := [".xlsx", ".csv"]

/-- Split a character list on a separator character, Python `str.split(sep)`
style: "2019-07-15" on the dash gives the three fields, empty fields are
kept. -/
def splitOnChar (c : Char) : List Char → List (List Char)
  | [] => [[]]
  | x :: xs =>
    match splitOnChar c xs, decide (x = c) with
    | r, true => [] :: r
    | [], false => [[x]]
    | y :: ys, false => (x :: y) :: ys

def isDigits (l : List Char) : Bool := !l.isEmpty && l.all (·.isDigit)

def digitsToNat (l : List Char) : Nat :=
  l.foldl (fun acc c => acc * 10 + (c.toNat - 48)) 0

/-- Modelled from the spec: the date part YYYY-mm-dd of the time argument
(spec section 6; `maketime` of `libcomcat.utils` is not among the provided
sources). -/
def parseDate (l : List Char) : Option (Nat × Nat × Nat) :=
  match splitOnChar (Char.ofNat 45) l with
  | [y, m, d] =>
    if isDigits y && y.length == 4 && isDigits m && m.length == 2 &&
        isDigits d && d.length == 2 &&
        decide (1 ≤ digitsToNat m) && decide (digitsToNat m ≤ 12) &&
        decide (1 ≤ digitsToNat d) && decide (digitsToNat d ≤ 31) then
      some (digitsToNat y, digitsToNat m, digitsToNat d)
    else none
  | _ => none

/-- Modelled from the spec: the clock part HH:MM:SS of the time argument. -/
def parseClock (l : List Char) : Option (Nat × Nat × Nat) :=
  match splitOnChar (Char.ofNat 58) l with
  | [h, m, sec] =>
    if isDigits h && h.length == 2 && isDigits m && m.length == 2 &&
        isDigits sec && sec.length == 2 &&
        decide (digitsToNat h ≤ 23) && decide (digitsToNat m ≤ 59) &&
        decide (digitsToNat sec ≤ 59) then
      some (digitsToNat h, digitsToNat m, digitsToNat sec)
    else none
  | _ => none

/-- Seconds on a simplified calendar (every month taken as 31 days).  The
absolute encoding is irrelevant to every claim below; only parse
success/failure and time differences that the theorems choose concretely
matter. -/
def dateSecs (y m d h mi s : Nat) : Int :=
  ((y * 372 + (m - 1) * 31 + (d - 1)) * 86400 + h * 3600 + mi * 60 + s : Nat)

/-- Modelled from the spec: `maketime` of `libcomcat.utils` is not among the
provided sources.  The spec (findid.py lines 57-58 and spec section 6) says
the time argument is formatted as YYYY-mm-dd or YYYY-mm-ddTHH:MM:SS; any
other string is unparseable and rejected. -/
def maketime (s : String) : Option Int :=
  match splitOnChar (Char.ofNat 84) s.data with
  | [d] => (parseDate d).map fun yd => dateSecs yd.1 yd.2.1 yd.2.2 0 0 0
  | [d, t] =>
    match parseDate d, parseClock t with
    | some yd, some hm => some (dateSecs yd.1 yd.2.1 yd.2.2 hm.1 hm.2.1 hm.2.2)
    | _, _ => none
  | _ => none

/-- The parsed command-line arguments of findid.py (`args` after
`parser.parse_args()`): `time` is already converted by `maketime`, `lat` and
`lon` by `float`; `radius`, `window` and `outfile` are `None` when the flag
is absent. -/
structure Args where
  time : Int
  lat : Rat
  lon : Rat
  radius : Option Rat
  window : Option Rat
  print_all : Bool
  print_url : Bool
  print_verbose : Bool
  outfile : Option String
deriving DecidableEq, Repr

/-- How the process terminates: `sys.exit(n)` or an uncaught Python
exception (which the interpreter turns into a traceback on stderr and
process exit status 1). -/
inductive Exit where
  | code (n : Nat)
  | raised (exn : String)
deriving DecidableEq, Repr

/-- Observable outcome of one invocation: termination, event output printed
(`results`), usage/log messages (`diagnostics`), whether the catalog was
queried (`fetched`), the file written if any (`wrote`), and the
(window, radius) actually passed to `find_nearby_events` (`query`). -/
structure RunResult where
  exit : Exit
  results : List String
  diagnostics : List String
  fetched : Bool
  wrote : Option String
  query : Option (Rat × Rat)
deriving DecidableEq, Repr

/-- Python `bool` used as an integer in `args.print_all + args.print_url +
args.print_verbose` (findid.py line 117). -/
def b2n (b : Bool) : Nat := if b then 1 else 0

def MUTEX_MSG : String :=
  "The -a, -v, and -u options are mutually exclusive. Choose one of these options. Exiting."

def AO_MSG : String := "You must select -a and -o together. Exiting"

def extMsg (fext : String) : String :=
  "File extension " ++ fext ++ " not in list of supported formats: [.xlsx, .csv]. Exiting."

def NOMATCH_MSG : String :=
  "No events found matching your search criteria. Exiting."

/-- `if args.window:` — Python truthiness of an optional float: `None` and
`0.0` are falsy, every other float is truthy (findid.py lines 142, 146). -/
def pyTruthy : Option Rat → Bool
  | none => false
  | some v => decide (v ≠ 0)

/-- `twindow = TIME_WINDOW; if args.window: twindow = args.window`
(findid.py lines 141-143). -/
def effectiveWindow (w : Option Rat) : Rat :=
  if pyTruthy w then w.getD TIME_WINDOW else TIME_WINDOW

/-- `radius = SEARCH_RADIUS; if args.radius: radius = args.radius`
(findid.py lines 145-147). -/
def effectiveRadius (r : Option Rat) : Rat :=
  if pyTruthy r then r.getD SEARCH_RADIUS else SEARCH_RADIUS

/-- `lat` within [-90, 90] and `lon` within [-180, 180] (spec section 4.1). -/
def inRange (lat lon : Rat) : Bool :=
  decide (-90 ≤ lat) && decide (lat ≤ 90) && decide (-180 ≤ lon) && decide (lon ≤ 180)

/-- Outcome of `find_nearby_events`: either a raised exception or an optional
data frame, plus whether the catalog service was actually queried. -/
structure FindOutcome where
  result : Except String (Option (List RankedEvent))
  fetched : Bool

/-- Modelled from the spec: `find_nearby_events` of `libcomcat.dataframes` is
not among the provided sources.  Per spec sections 4.1, 4.3 and 7 it
validates the coordinates and raises `ValidationError` before any network
call when they are out of range; otherwise it queries the catalog, ranks the
candidates, and returns `None` when the filtered set is empty (the no-match
condition), else the ranked data frame. -/
def find_nearby_events (geo : Geo) (fetch : Fetch) (time : Int)
    (lat lon twindow radius : Rat) : FindOutcome :=
  if inRange lat lon then
    let df := rank_events geo time lat lon twindow radius (fetch time lat lon twindow radius)
    { result := .ok (if df.isEmpty then none else some df), fetched := true }
  else
    { result := .error "ValidationError", fetched := false }

/-- `print(event_df)` rendered as one line per row (the exact pandas layout
is irrelevant to every claim). -/
def renderTable (df : List RankedEvent) : List String := df.map reprStr

/-- The verbose field dump of findid.py lines 171-177: the event id line,
then one `  col : value` line per remaining column. -/
def verboseLines (r : RankedEvent) : List String :=
  ("Event " ++ r.event.id) ::
    [ "  time : " ++ reprStr r.event.time,
      "  latitude : " ++ reprStr r.event.latitude,
      "  longitude : " ++ reprStr r.event.longitude,
      "  depth : " ++ reprStr r.event.depth,
      "  magnitude : " ++ reprStr r.event.magnitude,
      "  url : " ++ r.event.url,
      "  distance : " ++ reprStr r.distance_km,
      "  timedelta : " ++ reprStr r.time_delta_s,
      "  azimuth : " ++ reprStr r.azimuth_deg ]

/-- findid.py lines 141-183: everything of `main` after the three usage
checks.  The default (id-only) branch models line 183,
`print(nearest['id'].values[0])`: `nearest` is the first row of the data
frame (a pandas Series), so `nearest['id']` is the scalar id string, and a
Python `str` has no attribute `values` — attribute lookup raises
`AttributeError` (contrast line 172, which uses the scalar `nearest['id']`
directly). -/
def runQuery (geo : Geo) (fetch : Fetch) (args : Args) : RunResult :=
  let twindow := effectiveWindow args.window
  let radius := effectiveRadius args.radius
  let q := some (twindow, radius)
  let fo := find_nearby_events geo fetch args.time args.lat args.lon twindow radius
  match fo.result with
  | .error e =>
    { exit := .raised e, results := [], diagnostics := [],
      fetched := fo.fetched, wrote := none, query := q }
  | .ok none =>
    { exit := .code 0, results := [], diagnostics := [NOMATCH_MSG],
      fetched := fo.fetched, wrote := none, query := q }
  | .ok (some df) =>
    match df with
    | [] =>
      { exit := .raised "IndexError", results := [], diagnostics := [],
        fetched := fo.fetched, wrote := none, query := q }
    | nearest :: _ =>
      if args.print_all then
        match args.outfile with
        | none =>
          { exit := .code 0, results := renderTable df, diagnostics := [],
            fetched := fo.fetched, wrote := none, query := q }
        | some f =>
          { exit := .code 0, results := [],
            diagnostics := ["Wrote " ++ toString df.length ++ " records to " ++ f],
            fetched := fo.fetched, wrote := some f, query := q }
      else if args.print_verbose then
        { exit := .code 0, results := verboseLines nearest, diagnostics := [],
          fetched := fo.fetched, wrote := none, query := q }
      else if args.print_url then
        { exit := .code 0, results := [nearest.event.url], diagnostics := [],
          fetched := fo.fetched, wrote := none, query := q }
      else
        { exit := .raised "AttributeError", results := [], diagnostics := [],
          fetched := fo.fetched, wrote := none, query := q }

/-- Whether the outfile, if given, has an unsupported extension
(findid.py lines 130-137). -/
def badExt : Option String → Bool
  | none => false
  | some f => decide ((splitext f).2 ∉ supported)

/-- `main` of findid.py (lines 106-183), after argument parsing: the three
usage checks of lines 116-137 in source order, then the query and the four
output modes. -/
def mainRun (geo : Geo) (fetch : Fetch) (args : Args) : RunResult :=
  if 1 < b2n args.print_all + b2n args.print_url + b2n args.print_verbose then
    { exit := .code 1, results := [], diagnostics := [MUTEX_MSG],
      fetched := false, wrote := none, query := none }
  else if args.outfile.isSome && !args.print_all then
    { exit := .code 1, results := [], diagnostics := [AO_MSG],
      fetched := false, wrote := none, query := none }
  else if badExt args.outfile then
    { exit := .code 1, results := [],
      diagnostics := [extMsg (splitext (args.outfile.getD "")).2],
      fetched := false, wrote := none, query := none }
  else
    runQuery geo fetch args

/-- The raw command line: the time positional as the string the user typed,
the remaining arguments already in parsed form (their parsing — `float` for
lat/lon, store_true flags, plain string outfile — cannot fail in the cases
any claim quantifies over). -/
structure CLIInput where
  time_str : String
  lat : Rat
  lon : Rat
  radius : Option Rat
  window : Option Rat
  print_all : Bool
  print_url : Bool
  print_verbose : Bool
  outfile : Option String
deriving DecidableEq, Repr

/-- The argument record that argparse hands to `main` once the time string
has parsed to `t`. -/
def argsOf (inp : CLIInput) (t : Int) : Args :=
  { time := t, lat := inp.lat, lon := inp.lon, radius := inp.radius,
    window := inp.window, print_all := inp.print_all, print_url := inp.print_url,
    print_verbose := inp.print_verbose, outfile := inp.outfile }

/-- The whole invocation, time parsing included: `type=maketime` on the time
positional (findid.py line 59) makes argument parsing call `maketime` on the
raw string.  Modelled from the spec: `maketime` (libcomcat.utils) is not
among the provided sources; per spec sections 4.1 and 7 an unparseable time
is a `ValidationError`, surfaced before any network call, so a failed parse
ends the invocation with that exception uncaught (the interpreter prints a
traceback and the process exits with status 1, see `exitStatus`).
Otherwise `main` runs on the parsed arguments. -/
def program (geo : Geo) (fetch : Fetch) (inp : CLIInput) : RunResult :=
  match maketime inp.time_str with
  | none =>
    { exit := .raised "ValidationError", results := [], diagnostics := [],
      fetched := false, wrote := none, query := none }
  | some t => mainRun geo fetch (argsOf inp t)

/-- The process exit status a termination produces: the argument of
`sys.exit`, and 1 for an uncaught exception (the CPython interpreter prints
the traceback and exits with status 1). -/
def exitStatus : Exit → Nat
  | .code n => n
  | .raised _ => 1

end FindId

namespace FindId

/-! ## Properties of the composite-key comparison -/

theorem rabs_eq_abs (q : Rat) : rabs q = |q| := by
  rcases le_or_lt 0 q with h | h
  · rw [rabs, if_neg (not_lt.mpr h), abs_of_nonneg h]
  · rw [rabs, if_pos h, abs_of_neg h]

theorem rankLe_refl (a : RankedEvent) : rankLe a a = true := by
  simp [rankLe]

theorem rankLe_trans (a b c : RankedEvent) :
    rankLe a b = true → rankLe b c = true → rankLe a c = true := by
  simp only [rankLe, Bool.or_eq_true, Bool.and_eq_true, decide_eq_true_eq]
  rintro (h | ⟨he, hd⟩) (h2 | ⟨he2, hd2⟩)
  · exact Or.inl (lt_trans h h2)
  · exact Or.inl (he2 ▸ h)
  · exact Or.inl (he ▸ h2)
  · exact Or.inr ⟨he.trans he2, le_trans hd hd2⟩

theorem rankLe_total (a b : RankedEvent) : (rankLe a b || rankLe b a) = true := by
  simp only [rankLe, Bool.or_eq_true, Bool.and_eq_true, decide_eq_true_eq]
  rcases lt_trichotomy a.time_delta_s b.time_delta_s with h | h | h
  · exact Or.inl (Or.inl h)
  · rcases le_total a.distance_km b.distance_km with hd | hd
    · exact Or.inl (Or.inr ⟨h, hd⟩)
    · exact Or.inr (Or.inr ⟨h.symm, hd⟩)
  · exact Or.inr (Or.inl h)

end FindId

namespace FindId

/-! ## Helper lemmas about the embedded `main` -/

/-- The three usage checks of findid.py lines 116-137, bundled: none of the
guards of `mainRun` fires. -/
def usageOk (args : Args) : Bool :=
  decide (b2n args.print_all + b2n args.print_url + b2n args.print_verbose ≤ 1) &&
    !(args.outfile.isSome && !args.print_all) && !(badExt args.outfile)

theorem mainRun_eq_runQuery (geo : Geo) (fetch : Fetch) (args : Args)
    (h : usageOk args = true) : mainRun geo fetch args = runQuery geo fetch args := by
  simp only [usageOk, Bool.and_eq_true, Bool.not_eq_true', decide_eq_true_eq] at h
  obtain ⟨⟨h1, h2⟩, h3⟩ := h
  unfold mainRun
  rw [if_neg (by omega), if_neg (by simp [h2]), if_neg (by simp [h3])]

theorem mainRun_usage_error (geo : Geo) (fetch : Fetch) (args : Args)
    (h : usageOk args = false) :
    (mainRun geo fetch args).exit = .code 1 ∧ (mainRun geo fetch args).results = [] ∧
    (mainRun geo fetch args).fetched = false ∧ (mainRun geo fetch args).wrote = none := by
  unfold mainRun
  by_cases h1 : 1 < b2n args.print_all + b2n args.print_url + b2n args.print_verbose
  · rw [if_pos h1]; exact ⟨rfl, rfl, rfl, rfl⟩
  · rw [if_neg h1]
    by_cases h2 : (args.outfile.isSome && !args.print_all) = true
    · rw [if_pos h2]; exact ⟨rfl, rfl, rfl, rfl⟩
    · rw [if_neg h2]
      have hA : decide (b2n args.print_all + b2n args.print_url + b2n args.print_verbose ≤ 1) = true := by
        simp only [decide_eq_true_eq]; omega
      have hB : (args.outfile.isSome && !args.print_all) = false := by
        simpa using h2
      have h3 : badExt args.outfile = true := by
        simp only [usageOk, hA, hB, Bool.not_false, Bool.true_and, Bool.and_true] at h
        simpa using h
      rw [if_pos h3]; exact ⟨rfl, rfl, rfl, rfl⟩

theorem runQuery_validation (geo : Geo) (fetch : Fetch) (args : Args)
    (h : inRange args.lat args.lon = false) :
    runQuery geo fetch args =
      { exit := .raised "ValidationError", results := [], diagnostics := [],
        fetched := false, wrote := none,
        query := some (effectiveWindow args.window, effectiveRadius args.radius) } := by
  simp [runQuery, find_nearby_events, h]

theorem runQuery_nomatch (geo : Geo) (fetch : Fetch) (args : Args)
    (hr : inRange args.lat args.lon = true)
    (he : rank_events geo args.time args.lat args.lon
      (effectiveWindow args.window) (effectiveRadius args.radius)
      (fetch args.time args.lat args.lon
        (effectiveWindow args.window) (effectiveRadius args.radius)) = []) :
    runQuery geo fetch args =
      { exit := .code 0, results := [], diagnostics := [NOMATCH_MSG],
        fetched := true, wrote := none,
        query := some (effectiveWindow args.window, effectiveRadius args.radius) } := by
  simp [runQuery, find_nearby_events, hr, he]

theorem runQuery_query (geo : Geo) (fetch : Fetch) (args : Args) :
    (runQuery geo fetch args).query =
      some (effectiveWindow args.window, effectiveRadius args.radius) := by
  dsimp only [runQuery]
  repeat' split
  all_goals rfl

theorem runQuery_modes_exit (geo : Geo) (fetch : Fetch) (args : Args)
    (hr : inRange args.lat args.lon = true)
    (hm : (args.print_all || args.print_url || args.print_verbose) = true)
    (hne : rank_events geo args.time args.lat args.lon
      (effectiveWindow args.window) (effectiveRadius args.radius)
      (fetch args.time args.lat args.lon
        (effectiveWindow args.window) (effectiveRadius args.radius)) ≠ []) :
    (runQuery geo fetch args).exit = .code 0 := by
  rcases hdf : rank_events geo args.time args.lat args.lon
      (effectiveWindow args.window) (effectiveRadius args.radius)
      (fetch args.time args.lat args.lon
        (effectiveWindow args.window) (effectiveRadius args.radius)) with _ | ⟨a, rest⟩
  · exact absurd hdf hne
  · simp only [runQuery, find_nearby_events, hr, if_true, hdf]
    by_cases hall : args.print_all = true
    · simp only [hall, if_true]
      cases args.outfile <;> simp
    · by_cases hver : args.print_verbose = true
      · simp [hall, hver]
      · by_cases hurl : args.print_url = true
        · simp [hall, hver, hurl]
        · exfalso
          simp [hall, hver, hurl] at hm

end FindId

namespace FindId

/-! ## Concrete fixtures used by the witnesses -/

/-- A concrete geometry for witnesses: taxicab distance in coordinate space.
(Every universally quantified theorem above holds for any geometry.) -/
def taxicabGeo : Geo :=
  { dist := fun lat0 lon0 lat1 lon1 => rabs (lat1 - lat0) + rabs (lon1 - lon0)
    azimuth := fun _ _ _ _ => 0 }

/-- A catalog oracle that returns the same candidate list for every query. -/
def constFetch (evs : List CandidateEvent) : Fetch := fun _ _ _ _ _ => evs

def evTieA : CandidateEvent :=
  { id := "evA", time := 4, latitude := 1, longitude := 0, depth := 8,
    magnitude := 5, url := "https://example.org/evA" }

def evTieB : CandidateEvent :=
  { id := "evB", time := -4, latitude := 0, longitude := 1, depth := 10,
    magnitude := 6, url := "https://example.org/evB" }

def rTieA : RankedEvent :=
  { event := evTieA, distance_km := 1, time_delta_s := 4, azimuth_deg := 0 }

def rTieB : RankedEvent :=
  { event := evTieB, distance_km := 1, time_delta_s := 4, azimuth_deg := 0 }

/-! ## Claim C1 -/

/-- Claim C1: for every query, the ranked result set is (i) sorted ascending
by the composite key (time_delta_s, distance_km), (ii) a permutation of the
scored candidates that survive the window/radius filter, (iii) stable under
ties — two rows with equal composite key keep their encounter order — and
(iv) its first row is least under the composite key among all rows, i.e. the
event nearest in time, then space, which the single-event output modes take
as row 0. -/
theorem claim_C1_ranked_sorted (geo : Geo) (t0 : Int) (lat0 lon0 window radius : Rat)
    (cands : List CandidateEvent) :
    (rank_events geo t0 lat0 lon0 window radius cands).Pairwise
        (fun a b => rankLe a b = true) ∧
    (rank_events geo t0 lat0 lon0 window radius cands).Perm
        (filter_events window radius (score_events geo t0 lat0 lon0 cands)) ∧
    (∀ a b, [a, b].Sublist (filter_events window radius (score_events geo t0 lat0 lon0 cands)) →
      rankKey a = rankKey b →
      [a, b].Sublist (rank_events geo t0 lat0 lon0 window radius cands)) ∧
    (∀ r rest, rank_events geo t0 lat0 lon0 window radius cands = r :: rest →
      ∀ x ∈ rank_events geo t0 lat0 lon0 window radius cands, rankLe r x = true) := by
  have hsorted : (rank_events geo t0 lat0 lon0 window radius cands).Pairwise
      (fun a b => rankLe a b = true) := by
    simpa [rank_events] using
      List.sorted_mergeSort rankLe_trans rankLe_total
        (filter_events window radius (score_events geo t0 lat0 lon0 cands))
  refine ⟨hsorted, ?_, ?_, ?_⟩
  · simpa [rank_events] using
      List.mergeSort_perm
        (filter_events window radius (score_events geo t0 lat0 lon0 cands)) rankLe
  · intro a b hsub hkey
    have hk : a.time_delta_s = b.time_delta_s ∧ a.distance_km = b.distance_km := by
      simpa [rankKey, Prod.ext_iff] using hkey
    have hpw : [a, b].Pairwise (fun x y => rankLe x y = true) := by
      simp [List.pairwise_cons, rankLe, hk.1, hk.2]
    simpa [rank_events] using
      List.sublist_mergeSort rankLe_trans rankLe_total hpw hsub
  · intro r rest hout x hx
    rw [hout] at hsorted hx
    rcases List.mem_cons.mp hx with rfl | hx2
    · exact rankLe_refl x
    · exact List.rel_of_pairwise_cons hsorted hx2

end FindId

namespace FindId

/-- Witness for claim C1: a concrete query whose two candidates tie on the
composite key (4, 1); the theorem yields that they keep their encounter
order in the ranked output. -/
theorem claim_C1_witness :
    [rTieA, rTieB].Sublist (rank_events taxicabGeo 0 0 0 16 100 [evTieA, evTieB]) := by
  apply (claim_C1_ranked_sorted taxicabGeo 0 0 0 16 100 [evTieA, evTieB]).2.2.1 rTieA rTieB
  · have h : filter_events 16 100 (score_events taxicabGeo 0 0 0 [evTieA, evTieB]) =
        [rTieA, rTieB] := by
      norm_num [filter_events, score_events, taxicabGeo, evTieA, evTieB, rTieA, rTieB,
        rabs, RankedEvent.mk.injEq, List.filter]
    rw [h]
  · rfl

end FindId

namespace FindId

/-! ## Claim C3 -/

/-- Claim C3: whenever more than one of the mode flags -a, -u, -v is given,
`main` prints the mutual-exclusion usage message, exits with code 1, prints
no event output, writes no file, and performs no network request
(findid.py lines 116-122). -/
theorem claim_C3_mutex (geo : Geo) (fetch : Fetch) (args : Args)
    (h : 1 < b2n args.print_all + b2n args.print_url + b2n args.print_verbose) :
    (mainRun geo fetch args).exit = .code 1 ∧
    (mainRun geo fetch args).results = [] ∧
    (mainRun geo fetch args).fetched = false ∧
    (mainRun geo fetch args).wrote = none ∧
    (mainRun geo fetch args).diagnostics = [MUTEX_MSG] := by
  unfold mainRun
  rw [if_pos h]
  exact ⟨rfl, rfl, rfl, rfl, rfl⟩

def argsAU : Args :=
  { time := 0, lat := 35, lon := -117, radius := none, window := none,
    print_all := true, print_url := true, print_verbose := false, outfile := none }

/-- Witness for claim C3: `-a` and `-u` together. -/
theorem claim_C3_witness :
    (mainRun taxicabGeo (constFetch []) argsAU).exit = .code 1 ∧
    (mainRun taxicabGeo (constFetch []) argsAU).results = [] ∧
    (mainRun taxicabGeo (constFetch []) argsAU).fetched = false :=
  have h := claim_C3_mutex taxicabGeo (constFetch []) argsAU (by decide)
  ⟨h.1, h.2.1, h.2.2.1⟩

/-! ## Claim C6 -/

/-- Claim C6: whenever -o names a file whose extension is not in the fixed
supported set {.xlsx, .csv}, `main` exits with code 1, queries nothing,
writes nothing, and prints no event output — it never falls back to another
format (findid.py lines 129-137). -/
theorem claim_C6_bad_extension (geo : Geo) (fetch : Fetch) (args : Args) (f : String)
    (hof : args.outfile = some f) (hext : (splitext f).2 ∉ supported) :
    (mainRun geo fetch args).exit = .code 1 ∧
    (mainRun geo fetch args).results = [] ∧
    (mainRun geo fetch args).fetched = false ∧
    (mainRun geo fetch args).wrote = none := by
  have hu : usageOk args = false := by
    simp [usageOk, badExt, hof, hext]
  have h := mainRun_usage_error geo fetch args hu
  exact ⟨h.1, h.2.1, h.2.2.1, h.2.2.2⟩

def argsOutTxt : Args :=
  { time := 0, lat := 35, lon := -117, radius := none, window := none,
    print_all := true, print_url := false, print_verbose := false,
    outfile := some "out.txt" }

/-- Witness for claim C6: `-o out.txt -a` is rejected. -/
theorem claim_C6_witness :
    (mainRun taxicabGeo (constFetch []) argsOutTxt).exit = .code 1 ∧
    (mainRun taxicabGeo (constFetch []) argsOutTxt).wrote = none :=
  have h := claim_C6_bad_extension taxicabGeo (constFetch []) argsOutTxt "out.txt"
    rfl (by decide)
  ⟨h.1, h.2.2.2⟩

/-! ## Claim C7 -/

/-- Claim C7: whenever the outfile flag -o is given without the all-mode
flag -a, `main` exits
with code 1 before any work: no network request, no file written, no event
output (findid.py lines 124-127). -/
theorem claim_C7_outfile_requires_all (geo : Geo) (fetch : Fetch) (args : Args)
    (f : String) (hof : args.outfile = some f) (ha : args.print_all = false) :
    (mainRun geo fetch args).exit = .code 1 ∧
    (mainRun geo fetch args).results = [] ∧
    (mainRun geo fetch args).fetched = false ∧
    (mainRun geo fetch args).wrote = none := by
  have hu : usageOk args = false := by
    simp [usageOk, hof, ha]
  have h := mainRun_usage_error geo fetch args hu
  exact ⟨h.1, h.2.1, h.2.2.1, h.2.2.2⟩

def argsOutNoAll : Args :=
  { time := 0, lat := 35, lon := -117, radius := none, window := none,
    print_all := false, print_url := false, print_verbose := false,
    outfile := some "out.csv" }

/-- Witness for claim C7: `-o out.csv` without `-a`. -/
theorem claim_C7_witness :
    (mainRun taxicabGeo (constFetch []) argsOutNoAll).exit = .code 1 ∧
    (mainRun taxicabGeo (constFetch []) argsOutNoAll).fetched = false :=
  have h := claim_C7_outfile_requires_all taxicabGeo (constFetch []) argsOutNoAll
    "out.csv" rfl rfl
  ⟨h.1, h.2.2.1⟩

end FindId

namespace FindId

theorem mainRun_not_fetched (geo : Geo) (fetch : Fetch) (args : Args)
    (h : inRange args.lat args.lon = false) :
    (mainRun geo fetch args).fetched = false := by
  by_cases hu : usageOk args = true
  · rw [mainRun_eq_runQuery geo fetch args hu, runQuery_validation geo fetch args h]
  · exact (mainRun_usage_error geo fetch args (by simpa using hu)).2.2.1

/-! ## Claim C2 -/

/-- Claim C2: an invocation whose latitude is outside [-90, 90] or whose
longitude is outside [-180, 180] never queries the catalog, and — whenever
the time argument parses and no usage check fires first — it fails with an
uncaught ValidationError (surfaced before any network call). -/
theorem claim_C2_validation (geo : Geo) (fetch : Fetch) (inp : CLIInput)
    (hrange : ¬(-90 ≤ inp.lat ∧ inp.lat ≤ 90) ∨ ¬(-180 ≤ inp.lon ∧ inp.lon ≤ 180)) :
    (program geo fetch inp).fetched = false ∧
    (∀ t, maketime inp.time_str = some t → usageOk (argsOf inp t) = true →
      (program geo fetch inp).exit = .raised "ValidationError") := by
  have hr : inRange inp.lat inp.lon = false := by
    cases hb : inRange inp.lat inp.lon with
    | false => rfl
    | true =>
      exfalso
      simp only [inRange, Bool.and_eq_true, decide_eq_true_eq] at hb
      rcases hrange with hc | hc
      · exact hc ⟨hb.1.1.1, hb.1.1.2⟩
      · exact hc ⟨hb.1.2, hb.2⟩
  constructor
  · unfold program
    cases hmt : maketime inp.time_str with
    | none => rfl
    | some t => exact mainRun_not_fetched geo fetch (argsOf inp t) hr
  · intro t hmt hu
    simp only [program, hmt]
    rw [mainRun_eq_runQuery geo fetch (argsOf inp t) hu,
      runQuery_validation geo fetch (argsOf inp t) hr]

def inpOutOfRange : CLIInput :=
  { time_str := "2019-07-15", lat := 91, lon := 0, radius := none, window := none,
    print_all := false, print_url := false, print_verbose := false, outfile := none }

/-- Witness for claim C2: latitude 91 with a well-formed time. -/
theorem claim_C2_witness :
    (program taxicabGeo (constFetch []) inpOutOfRange).fetched = false ∧
    (program taxicabGeo (constFetch []) inpOutOfRange).exit = .raised "ValidationError" := by
  have h := claim_C2_validation taxicabGeo (constFetch []) inpOutOfRange
    (Or.inl (by decide))
  exact ⟨h.1, h.2 (dateSecs 2019 7 15 0 0 0) (by decide) (by decide)⟩

/-! ## Claim C5 -/

/-- Claim C5: a query that yields no matching candidates is not a failure:
`main` logs the informational no-match message, prints no event output, and
exits with code 0 — never a non-zero exit, never a stack trace
(findid.py lines 152-155). -/
theorem claim_C5_nomatch (geo : Geo) (fetch : Fetch) (args : Args)
    (hu : usageOk args = true) (hr : inRange args.lat args.lon = true)
    (he : rank_events geo args.time args.lat args.lon
      (effectiveWindow args.window) (effectiveRadius args.radius)
      (fetch args.time args.lat args.lon
        (effectiveWindow args.window) (effectiveRadius args.radius)) = []) :
    (mainRun geo fetch args).exit = .code 0 ∧
    (mainRun geo fetch args).diagnostics = [NOMATCH_MSG] ∧
    (mainRun geo fetch args).results = [] := by
  rw [mainRun_eq_runQuery geo fetch args hu, runQuery_nomatch geo fetch args hr he]
  exact ⟨rfl, rfl, rfl⟩

def argsPlain : Args :=
  { time := 0, lat := 35, lon := -117, radius := none, window := none,
    print_all := false, print_url := false, print_verbose := false, outfile := none }

/-- Witness for claim C5: an empty catalog answer exits 0 with the
informational message. -/
theorem claim_C5_witness :
    (mainRun taxicabGeo (constFetch []) argsPlain).exit = .code 0 ∧
    (mainRun taxicabGeo (constFetch []) argsPlain).diagnostics = [NOMATCH_MSG] := by
  have h := claim_C5_nomatch taxicabGeo (constFetch []) argsPlain (by decide) (by decide)
    (by simp [rank_events, filter_events, score_events, constFetch])
  exact ⟨h.1, h.2.1⟩

end FindId

namespace FindId

/-! ## Claims C4 and C10: the window and radius actually used -/

theorem effectiveWindow_default (w : Option Rat) (h : w = none ∨ w = some 0) :
    effectiveWindow w = TIME_WINDOW := by
  rcases h with rfl | rfl
  · rfl
  · simp [effectiveWindow, pyTruthy]

theorem effectiveWindow_supplied (w : Rat) (h : w ≠ 0) :
    effectiveWindow (some w) = w := by
  simp [effectiveWindow, pyTruthy, h]

theorem effectiveRadius_default (r : Option Rat) (h : r = none ∨ r = some 0) :
    effectiveRadius r = SEARCH_RADIUS := by
  rcases h with rfl | rfl
  · rfl
  · simp [effectiveRadius, pyTruthy]

theorem effectiveRadius_supplied (r : Rat) (h : r ≠ 0) :
    effectiveRadius (some r) = r := by
  simp [effectiveRadius, pyTruthy, h]

def argsZeroFlags : Args :=
  { time := 0, lat := 35, lon := -117, radius := some 0, window := some 0,
    print_all := false, print_url := false, print_verbose := false, outfile := none }

/-- Counterexample to claim C4 as stated: with `-w 0 -r 0` the supplied
values are 0 and 0, yet the query is made with window 16 and radius 100 —
the supplied value is not used. -/
theorem claim_C4_counterexample :
    argsZeroFlags.window = some 0 ∧ argsZeroFlags.radius = some 0 ∧
    (mainRun taxicabGeo (constFetch []) argsZeroFlags).query =
      some (TIME_WINDOW, SEARCH_RADIUS) ∧
    TIME_WINDOW ≠ (0 : Rat) ∧ SEARCH_RADIUS ≠ (0 : Rat) := by
  refine ⟨rfl, rfl, ?_, by decide, by decide⟩
  rw [mainRun_eq_runQuery taxicabGeo (constFetch []) argsZeroFlags (by decide),
    runQuery_query]
  simp [argsZeroFlags, effectiveWindow, effectiveRadius, pyTruthy]

/-- Claim C4, amended: the window and radius passed to the query are the
defaults (16 s, 100 km) when the flag is unspecified, and the supplied value
when a nonzero value is supplied; a supplied value of exactly 0 is replaced
by the default, because findid.py lines 141-147 test the parsed option for
truthiness rather than for presence. -/
theorem claim_C4_amended (geo : Geo) (fetch : Fetch) (args : Args)
    (hu : usageOk args = true) :
    ((args.window = none ∨ args.window = some 0) →
      (mainRun geo fetch args).query.map Prod.fst = some TIME_WINDOW) ∧
    (∀ w, args.window = some w → w ≠ 0 →
      (mainRun geo fetch args).query.map Prod.fst = some w) ∧
    ((args.radius = none ∨ args.radius = some 0) →
      (mainRun geo fetch args).query.map Prod.snd = some SEARCH_RADIUS) ∧
    (∀ r, args.radius = some r → r ≠ 0 →
      (mainRun geo fetch args).query.map Prod.snd = some r) := by
  rw [mainRun_eq_runQuery geo fetch args hu]
  refine ⟨?_, ?_, ?_, ?_⟩
  · intro h
    rw [runQuery_query, effectiveWindow_default args.window h]
    rfl
  · intro w hw h0
    rw [runQuery_query, hw, effectiveWindow_supplied w h0]
    rfl
  · intro h
    rw [runQuery_query, effectiveRadius_default args.radius h]
    rfl
  · intro r hrr h0
    rw [runQuery_query, hrr, effectiveRadius_supplied r h0]
    rfl

def argsW5R0 : Args :=
  { time := 0, lat := 35, lon := -117, radius := some 0, window := some 5,
    print_all := false, print_url := false, print_verbose := false, outfile := none }

/-- Witness for the amended claim C4: `-w 5 -r 0` queries with window 5 and
the default radius 100. -/
theorem claim_C4_witness :
    (mainRun taxicabGeo (constFetch []) argsW5R0).query.map Prod.fst = some 5 ∧
    (mainRun taxicabGeo (constFetch []) argsW5R0).query.map Prod.snd = some SEARCH_RADIUS := by
  have h := claim_C4_amended taxicabGeo (constFetch []) argsW5R0 (by decide)
  exact ⟨h.2.1 5 rfl (by decide), h.2.2.1 (Or.inr rfl)⟩

/-- Claim C10: an explicit `-w 0` or `-r 0` is silently replaced by the
default (16 s, 100 km) because the option is tested for truthiness rather
than presence; any other supplied value is used as given
(findid.py lines 141-147). -/
theorem claim_C10_zero_truthiness (geo : Geo) (fetch : Fetch) (args : Args)
    (hu : usageOk args = true) :
    (args.window = some 0 →
      (mainRun geo fetch args).query.map Prod.fst = some TIME_WINDOW) ∧
    (args.radius = some 0 →
      (mainRun geo fetch args).query.map Prod.snd = some SEARCH_RADIUS) ∧
    (∀ w, args.window = some w → w ≠ 0 →
      (mainRun geo fetch args).query.map Prod.fst = some w) ∧
    (∀ r, args.radius = some r → r ≠ 0 →
      (mainRun geo fetch args).query.map Prod.snd = some r) := by
  rw [mainRun_eq_runQuery geo fetch args hu]
  refine ⟨?_, ?_, ?_, ?_⟩
  · intro h
    rw [runQuery_query, effectiveWindow_default args.window (Or.inr h)]
    rfl
  · intro h
    rw [runQuery_query, effectiveRadius_default args.radius (Or.inr h)]
    rfl
  · intro w hw h0
    rw [runQuery_query, hw, effectiveWindow_supplied w h0]
    rfl
  · intro r hrr h0
    rw [runQuery_query, hrr, effectiveRadius_supplied r h0]
    rfl

/-- Witness for claim C10: `-w 0 -r 0` queries with window 16 and radius
100. -/
theorem claim_C10_witness :
    (mainRun taxicabGeo (constFetch []) argsZeroFlags).query.map Prod.fst =
      some TIME_WINDOW ∧
    (mainRun taxicabGeo (constFetch []) argsZeroFlags).query.map Prod.snd =
      some SEARCH_RADIUS := by
  have h := claim_C10_zero_truthiness taxicabGeo (constFetch []) argsZeroFlags (by decide)
  exact ⟨h.1 rfl, h.2.1 rfl⟩

end FindId

namespace FindId

/-! ## Claim C8 -/

def inpBogusTime : CLIInput :=
  { time_str := "bogus", lat := 0, lon := 0, radius := none, window := none,
    print_all := false, print_url := false, print_verbose := false, outfile := none }

def inpAllMode : CLIInput :=
  { time_str := "2019-07-15", lat := 35, lon := -117, radius := none, window := none,
    print_all := true, print_url := false, print_verbose := false, outfile := none }

/-- Claim C8: the process exit status is 0 on success (here: of the -a, -u
and -v output modes) and on no-match, and 1 on every usage or validation
error — a usage error is a `sys.exit(1)`, and a validation error, including
an unparseable time argument, raises ValidationError, which ends the process
with the uncaught-exception status 1; no other exit status occurs on these
paths.  (The default id-only success path is the separate code bug of claim
C9.) -/
theorem claim_C8_exit_codes (geo : Geo) (fetch : Fetch) (inp : CLIInput) :
    (maketime inp.time_str = none → exitStatus (program geo fetch inp).exit = 1) ∧
    (∀ t, maketime inp.time_str = some t →
      (usageOk (argsOf inp t) = false → exitStatus (program geo fetch inp).exit = 1) ∧
      (usageOk (argsOf inp t) = true → inRange inp.lat inp.lon = false →
        exitStatus (program geo fetch inp).exit = 1) ∧
      (usageOk (argsOf inp t) = true → inRange inp.lat inp.lon = true →
        rank_events geo t inp.lat inp.lon (effectiveWindow inp.window)
          (effectiveRadius inp.radius)
          (fetch t inp.lat inp.lon (effectiveWindow inp.window)
            (effectiveRadius inp.radius)) = [] →
        exitStatus (program geo fetch inp).exit = 0) ∧
      (usageOk (argsOf inp t) = true → inRange inp.lat inp.lon = true →
        (inp.print_all || inp.print_url || inp.print_verbose) = true →
        rank_events geo t inp.lat inp.lon (effectiveWindow inp.window)
          (effectiveRadius inp.radius)
          (fetch t inp.lat inp.lon (effectiveWindow inp.window)
            (effectiveRadius inp.radius)) ≠ [] →
        exitStatus (program geo fetch inp).exit = 0)) := by
  constructor
  · intro hmt
    simp only [program, hmt]
    rfl
  · intro t hmt
    simp only [program, hmt]
    refine ⟨?_, ?_, ?_, ?_⟩
    · intro hu
      rw [(mainRun_usage_error geo fetch (argsOf inp t) hu).1]
      rfl
    · intro hu hr
      rw [mainRun_eq_runQuery geo fetch (argsOf inp t) hu,
        runQuery_validation geo fetch (argsOf inp t) hr]
      rfl
    · intro hu hr he
      rw [mainRun_eq_runQuery geo fetch (argsOf inp t) hu,
        runQuery_nomatch geo fetch (argsOf inp t) hr he]
      rfl
    · intro hu hr hm hne
      rw [mainRun_eq_runQuery geo fetch (argsOf inp t) hu,
        runQuery_modes_exit geo fetch (argsOf inp t) hr hm hne]
      rfl

/-- Witness for claim C8: an unparseable time ends with status 1; a
well-formed no-match query ends with status 0. -/
theorem claim_C8_witness :
    exitStatus (program taxicabGeo (constFetch []) inpBogusTime).exit = 1 ∧
    exitStatus (program taxicabGeo (constFetch []) inpAllMode).exit = 0 := by
  constructor
  · exact (claim_C8_exit_codes taxicabGeo (constFetch []) inpBogusTime).1 (by decide)
  · exact ((claim_C8_exit_codes taxicabGeo (constFetch []) inpAllMode).2
      (dateSecs 2019 7 15 0 0 0) (by decide)).2.2.1 (by decide) (by decide)
      (by simp [rank_events, filter_events, score_events, constFetch])

/-! ## Claim C9 -/

theorem runQuery_default_crash (geo : Geo) (fetch : Fetch) (args : Args)
    (hr : inRange args.lat args.lon = true)
    (hall : args.print_all = false) (hver : args.print_verbose = false)
    (hurl : args.print_url = false)
    (hne : rank_events geo args.time args.lat args.lon
      (effectiveWindow args.window) (effectiveRadius args.radius)
      (fetch args.time args.lat args.lon
        (effectiveWindow args.window) (effectiveRadius args.radius)) ≠ []) :
    (runQuery geo fetch args).exit = .raised "AttributeError" ∧
    (runQuery geo fetch args).results = [] ∧
    (runQuery geo fetch args).fetched = true := by
  rcases hdf : rank_events geo args.time args.lat args.lon
      (effectiveWindow args.window) (effectiveRadius args.radius)
      (fetch args.time args.lat args.lon
        (effectiveWindow args.window) (effectiveRadius args.radius)) with _ | ⟨a, rest⟩
  · exact absurd hdf hne
  · refine ⟨?_, ?_, ?_⟩ <;>
      simp [runQuery, find_nearby_events, hr, hdf, hall, hver, hurl]

def evNearby : CandidateEvent :=
  { id := "ci3144585", time := 0, latitude := 35, longitude := -117, depth := 8,
    magnitude := 7,
    url := "https://earthquake.usgs.gov/earthquakes/eventpage/ci3144585" }

def rNearby : RankedEvent :=
  { event := evNearby, distance_km := 0, time_delta_s := 0, azimuth_deg := 0 }

/-- Claim C9 says the default id-only mode prints the nearest event's id and
terminates successfully; the code instead crashes.  Line 183 of findid.py
evaluates `nearest['id'].values[0]`, but `nearest` is the first row of the
data frame, so `nearest['id']` is the scalar id string, and a Python `str`
has no attribute `values` (line 172 of the verbose branch uses the scalar
correctly).  At a query that finds one matching event, the default mode
raises AttributeError after fetching; the id is never printed. -/
theorem claim_C9_default_mode_crash :
    (mainRun taxicabGeo (constFetch [evNearby]) argsPlain).exit =
      .raised "AttributeError" ∧
    (mainRun taxicabGeo (constFetch [evNearby]) argsPlain).results = [] ∧
    (mainRun taxicabGeo (constFetch [evNearby]) argsPlain).fetched = true := by
  have hdf : rank_events taxicabGeo argsPlain.time argsPlain.lat argsPlain.lon
      (effectiveWindow argsPlain.window) (effectiveRadius argsPlain.radius)
      (constFetch [evNearby] argsPlain.time argsPlain.lat argsPlain.lon
        (effectiveWindow argsPlain.window) (effectiveRadius argsPlain.radius)) =
      [rNearby] := by
    norm_num [rank_events, filter_events, score_events, constFetch, taxicabGeo,
      evNearby, rNearby, rabs, argsPlain, effectiveWindow, effectiveRadius,
      pyTruthy, SEARCH_RADIUS, TIME_WINDOW, List.filter, List.mergeSort]
  rw [mainRun_eq_runQuery taxicabGeo (constFetch [evNearby]) argsPlain (by decide)]
  exact runQuery_default_crash taxicabGeo (constFetch [evNearby]) argsPlain
    (by decide) rfl rfl rfl (by rw [hdf]; simp)

end FindId
